import Mathlib

/-!
Shallow embedding of `src/webapp/static/product-form.js` (the product-photo
selection / analysis widget) and verification of its specified properties.

Modelling conventions:
* A browser `File` is modelled by its byte size only (`JSFile`), since the
  code inspects nothing else (`file.size`).
* `crypto.randomUUID()` / `URL.createObjectURL` are fresh-value suppliers;
  they are modelled by counters (`nextId`, `nextUrl`) threaded through the
  state, which captures exactly the freshness the code relies on.
* `setTimeout` ids come from a counter `nextTimer`; the set of scheduled,
  not-yet-fired, not-yet-cleared timers is `timerTable` (browser timer ids
  are positive, so the JS truthiness test `if (analysisTimeout)` coincides
  with `Option.isSome` as long as ids start at 1, which `mkInitial` does).
* `AbortController`s are modelled by ids from `nextCtl`; an in-flight fetch
  is a `Request` recording its controller id, whether that controller was
  aborted, and its phase: still awaiting response headers, or headers
  received (`response.ok` known) and awaiting the body (`response.json()`).
  Because the page is a single-threaded event loop whose microtasks drain
  before the next macrotask, a request whose controller is aborted while a
  phase is pending can only settle that phase as a rejection.
* DOM form fields touched by the suggestion applier are `Elem`
  (select-with-options or text-like input); assignment to a select only
  takes effect when the string matches an option value.
-/

/-- A selected browser file; the code reads only its `size`. -/
structure JSFile where
  size : Nat
deriving DecidableEq, Repr

/-- An entry of `selectedFiles`: `{ id, file, previewUrl }`. -/
structure SelectedPhoto where
  id : Nat
  file : JSFile
  previewUrl : Nat
deriving DecidableEq, Repr

/-- A form field element as seen by `gentlySetValue`: either a `SELECT`
with its current value and option values, or a text-like input. -/
inductive Elem where
  | select (value : String) (options : List String)
  | input (value : String)
deriving DecidableEq, Repr

/-- The `value` property of a field element. -/
def Elem.value : Elem → String
  | .select v _ => v
  | .input v => v

/-- DOM semantics of assigning `element.value = v`: a text input takes any
string; a select takes `v` only when some option has that value, otherwise
its value becomes the empty string. -/
def Elem.assignValue : Elem → String → Elem
  | .select _ opts, v => if v ∈ opts then .select v opts else .select "" opts
  | .input _, v => .input v

/-- JS `s.trim().length === 0`, i.e. the string is all whitespace. -/
def isBlank (s : String) : Bool := s.data.all Char.isWhitespace

/-- The five form fields the suggestion applier looks up
    (`#sn`, `#asset_tag`, `#description`, `#subcategory`, `#cod_destiny`);
    `none` models a field missing from the document. -/
structure FormFields where
  sn : Option Elem
  asset_tag : Option Elem
  description : Option Elem
  subcategory : Option Elem
  cod_destiny : Option Elem
deriving DecidableEq, Repr

/-- The server `suggestions` payload; `none` models an absent or `null`
JSON field. -/
structure Suggestions where
  serial_number : Option String
  asset_tag : Option String
  short_description : Option String
  subcategory : Option String
  cod_destiny : Option String
deriving DecidableEq, Repr

/-- The empty suggestions object (`payload.suggestions || {}`). -/
def emptySuggestions : Suggestions :=
  { serial_number := none, asset_tag := none, short_description := none
    subcategory := none, cod_destiny := none }

/-- Embedding of `gentlySetValue(element, value)`. It returns early when
the element is missing or the value is falsy (absent, null, or the empty
string); for a `SELECT` it writes the value whenever an option matches;
for a text input it writes only when the current value is blank. -/
def gentlySetValue (element : Option Elem) (value : Option String) : Option Elem :=
  match element, value with
  | none, _ => none
  | some e, none => some e
  | some e, some v =>
    if v = "" then some e
    else
      match e with
      | .select cur opts =>
        if v ∈ opts then some (.select v opts) else some (.select cur opts)
      | .input cur =>
        if isBlank cur then some (.input v) else some (.input cur)

/-- Embedding of `applySuggestions(suggestions)` acting on the five looked-up
fields: `gentlySetValue` on serial number, asset tag and subcategory; an
inlined only-if-blank assignment for the description (guarded by the
suggestion being truthy); and a null/undefined guard in front of
`gentlySetValue` for the destination field. -/
def applySuggestions (f : FormFields) (sugg : Suggestions) : FormFields :=
  { sn := gentlySetValue f.sn sugg.serial_number
    asset_tag := gentlySetValue f.asset_tag sugg.asset_tag
    description :=
      match f.description, sugg.short_description with
      | some el, some m =>
        if m ≠ "" then
          if isBlank el.value then some (el.assignValue m) else some el
        else some el
      | d, _ => d
    subcategory := gentlySetValue f.subcategory sugg.subcategory
    cod_destiny :=
      match f.cod_destiny, sugg.cod_destiny with
      | some el, some v => gentlySetValue (some el) (some v)
      | d, _ => d }

/-- The JSON payload of an analysis response.  `none` models an absent or
`null` JSON field. -/
structure Payload where
  status : Option String
  session : Option String
  suggestions : Option Suggestions
  message : Option String
deriving DecidableEq, Repr

/-- The payload used when the body is not parseable JSON:
`response.json().catch(() => ({}))`. -/
def emptyPayload : Payload :=
  { status := none, session := none, suggestions := none, message := none }

/-- Phase of an in-flight analysis request: still awaiting the response
headers (`await fetch`), or headers received — with `response.ok` fixed —
and awaiting the body (`await response.json()`). -/
inductive ReqPhase where
  | awaitingHeaders
  | awaitingBody (ok : Bool)
deriving DecidableEq, Repr

/-- An outstanding analysis fetch: its controller id, whether that
controller has been aborted, and its phase. -/
structure Request where
  ctl : Nat
  aborted : Bool
  phase : ReqPhase
deriving DecidableEq, Repr

/-- The mutable state of one widget instance: the module-level variables of
the IIFE, the DOM state it owns (hidden session field, status element, file
input, the five suggestion fields), plus bookkeeping for the fresh-value
suppliers, the scheduled timers and the outstanding fetches. -/
structure AppState where
  selectedFiles : List SelectedPhoto
  sessionValue : String
  statusText : String
  statusTone : Option String
  analysisController : Option Nat
  analyzing : Bool
  analysisTimeout : Option Nat
  timerTable : List Nat
  fileInputFiles : List JSFile
  fields : FormFields
  inFlight : List Request
  revokedUrls : List Nat
  nextId : Nat
  nextUrl : Nat
  nextCtl : Nat
  nextTimer : Nat
  defaultStatus : String
  hasDT : Bool
deriving DecidableEq, Repr

/-- Policy constant `MAX_FILES`. -/
def MAX_FILES : Nat := 10

/-- Policy constant `MAX_TOTAL_BYTES` (25 MiB). -/
def MAX_TOTAL_BYTES : Nat := 25 * 1024 * 1024

/-- The generic business-failure fallback message. -/
def analysisFailFallback : String :=
  "Photo analysis failed. Please submit manually or retry."

/-- Embedding of `clearSession()`: empty the hidden session field. -/
def clearSession (s : AppState) : AppState := { s with sessionValue := "" }

/-- Embedding of `syncFileInput()`: mirror the selection into the native
file input via a DataTransfer; a no-op when `window.DataTransfer` is
unavailable. -/
def syncFileInput (s : AppState) : AppState :=
  if s.hasDT then { s with fileInputFiles := s.selectedFiles.map (·.file) } else s

/-- Embedding of `showStatus(message, tone)`: display the message unless it
is blank (then the captured default text), and set or remove the tone
attribute depending on whether `tone` is truthy. -/
def showStatusIn (s : AppState) (message tone : String) : AppState :=
  let text := if isBlank message then s.defaultStatus else message
  if tone = "" then { s with statusText := text, statusTone := none }
  else { s with statusText := text, statusTone := some tone }

/-- Embedding of `totalBytes()`. -/
def totalBytes (s : AppState) : Nat :=
  (s.selectedFiles.map (fun e => e.file.size)).sum

/-- The guarded `clearTimeout(analysisTimeout)` call: unschedule the timer
recorded in the variable, when there is one. -/
def clearTimer (table : List Nat) : Option Nat → List Nat
  | some t => table.erase t
  | none => table

/-- Embedding of `queueAnalysis()`: clear any pending timer recorded in
`analysisTimeout`, then schedule a fresh 350ms timer and remember its id. -/
def queueAnalysis (s : AppState) : AppState :=
  { s with
    timerTable := clearTimer s.timerTable s.analysisTimeout ++ [s.nextTimer]
    analysisTimeout := some s.nextTimer
    nextTimer := s.nextTimer + 1 }

/-- The `incoming.forEach(push ...)` loop of `handleFiles`: append each file
with a fresh id and a fresh preview handle, in input order. -/
def pushAll (s : AppState) : List JSFile → AppState
  | [] => s
  | f :: fs =>
    pushAll
      { s with
        selectedFiles := s.selectedFiles ++ [⟨s.nextId, f, s.nextUrl⟩]
        nextId := s.nextId + 1
        nextUrl := s.nextUrl + 1 } fs

/-- Embedding of `handleFiles(fileList)`: drop falsy entries, return if none
remain, reject over-count then over-size against the prospective post-add
state, otherwise push all files, clear the session, resync the file input
and queue an analysis. -/
def handleFiles (s : AppState) (fileList : List (Option JSFile)) : AppState :=
  let incoming := fileList.reduceOption
  if incoming.isEmpty then s
  else if s.selectedFiles.length + incoming.length > MAX_FILES then
    showStatusIn s "Limit 10 photos per product. Remove some before adding more." "error"
  else if totalBytes s + (incoming.map (fun f => f.size)).sum > MAX_TOTAL_BYTES then
    showStatusIn s "Images exceed the 25 MB limit. Remove large files before retrying." "error"
  else
    queueAnalysis (syncFileInput (clearSession (pushAll s incoming)))

/-- Tail of `removeFile(id)` after the splice/revoke/clear/resync steps:
either queue an analysis (store still non-empty) or cancel the pending
timer and restore the default status. -/
def removeFileTail (s2 : AppState) : AppState :=
  if s2.selectedFiles.isEmpty then
    let s3 :=
      { s2 with
        timerTable := clearTimer s2.timerTable s2.analysisTimeout
        analysisTimeout := none }
    showStatusIn s3 s3.defaultStatus ""
  else queueAnalysis s2

/-- Body of `removeFile(id)` once `findIndex` has located the entry at
index `i`: splice the entry out, revoke its preview, clear the session,
resync, then the tail above. -/
def removeFileFound (s : AppState) (i : Nat) : AppState :=
  let removedUrls :=
    match s.selectedFiles.get? i with
    | some r => [r.previewUrl]
    | none => []
  let s1 :=
    { s with
      selectedFiles := s.selectedFiles.eraseIdx i
      revokedUrls := s.revokedUrls ++ removedUrls }
  removeFileTail (syncFileInput (clearSession s1))

/-- Embedding of `removeFile(id)`: a no-op when the id is absent,
otherwise the found-index body above. -/
def removeFile (s : AppState) (id : Nat) : AppState :=
  match s.selectedFiles.findIdx? (fun e => e.id == id) with
  | none => s
  | some i => removeFileFound s i

/-- Embedding of the clear-button listener: cancel the pending timer,
revoke all previews, empty the store, clear the session, resync, and show
the informational cleared message. -/
def clearButtonClick (s : AppState) : AppState :=
  let s1 :=
    { s with
      timerTable := clearTimer s.timerTable s.analysisTimeout
      analysisTimeout := none }
  let s2 :=
    { s1 with
      revokedUrls := s1.revokedUrls ++ s1.selectedFiles.map (·.previewUrl)
      selectedFiles := [] }
  showStatusIn (syncFileInput (clearSession s2)) "Photos cleared. Add new photos to try again." "info"

/-- Embedding of the submit listener: when the hidden session field is
non-empty, empty the native file input (both the DataTransfer branch and
the `fileInput.value = ""` fallback leave it without files); otherwise
resynchronize it from the store. -/
def submitHandler (s : AppState) : AppState :=
  if s.sessionValue ≠ "" then { s with fileInputFiles := [] }
  else syncFileInput s

/-- Embedding of the photo-trigger click listener; the boolean reports
whether `fileInput.click()` ran (the file chooser was opened). -/
def triggerClick (s : AppState) : AppState × Bool :=
  if s.analyzing then (s, false) else (s, true)

/-- Embedding of the reset listener: cancel the pending timer, revoke all
previews, empty the store, clear the session and restore the default
status. -/
def resetHandler (s : AppState) : AppState :=
  let s1 :=
    { s with
      timerTable := clearTimer s.timerTable s.analysisTimeout
      analysisTimeout := none }
  let s2 :=
    { s1 with
      revokedUrls := s1.revokedUrls ++ s1.selectedFiles.map (·.previewUrl)
      selectedFiles := [] }
  showStatusIn (clearSession s2) s2.defaultStatus ""

/-- Mark every outstanding request using controller `c` as aborted
(`analysisController.abort()`). -/
def abortCtl (s : AppState) (c : Nat) : AppState :=
  { s with
    inFlight := s.inFlight.map (fun r => if r.ctl == c then { r with aborted := true } else r) }

/-- The guarded `if (analysisController) analysisController.abort()` call. -/
def abortCtlOpt (s : AppState) : Option Nat → AppState
  | some c => abortCtl s c
  | none => s

/-- Embedding of the synchronous prefix of `runAnalysis()` up to and
including sending the fetch: return early on an empty store, clear the
pending-timer variable, abort the previous controller if any, install a
fresh controller, raise the analyzing flag, show the progress status and
put the new request in flight. -/
def runAnalysisImpl (s : AppState) : AppState :=
  if s.selectedFiles.isEmpty then s
  else
    let s1 :=
      { s with
        timerTable := clearTimer s.timerTable s.analysisTimeout
        analysisTimeout := none }
    let s2 := abortCtlOpt s1 s1.analysisController
    let s3 := showStatusIn s2 "Analyzing photos…" "progress"
    { s3 with
      analysisController := some s3.nextCtl
      nextCtl := s3.nextCtl + 1
      analyzing := true
      inFlight := s3.inFlight ++ [⟨s3.nextCtl, false, ReqPhase.awaitingHeaders⟩] }

/-- Look up the outstanding request with controller id `c`. -/
def findReq (s : AppState) (c : Nat) : Option Request :=
  s.inFlight.find? (fun r => r.ctl == c)

/-- Remove the request with controller id `c` from the outstanding set
(its promise chain has settled). -/
def dropReq (s : AppState) (c : Nat) : AppState :=
  { s with inFlight := s.inFlight.filter (fun r => r.ctl != c) }

/-- Change the phase of the request with controller id `c`. -/
def setPhase (s : AppState) (c : Nat) (ph : ReqPhase) : AppState :=
  { s with
    inFlight := s.inFlight.map (fun r => if r.ctl == c then { r with phase := ph } else r) }

/-- The `finally` block of `runAnalysis`: it runs on every settlement —
including an abort — and unconditionally resets the shared `analyzing`
flag and `analysisController` variable. -/
def finallyClear (s : AppState) : AppState :=
  { s with analyzing := false, analysisController := none }

/-- The continuation of `runAnalysis` after `response.json()` settles:
the rejection (malformed body, or a body read cut off by an abort) was
already converted to `{}` by `.catch(() => ({}))`.  Business failure
clears the session and shows the server message or the generic fallback;
success stores `payload.session || ""`, applies the suggestions and shows
the success status.  Either way the `finally` block then runs. -/
def settleBodyHandler (s : AppState) (ok : Bool) (res : Option Payload) : AppState :=
  let payload := res.getD emptyPayload
  if ok = false ∨ payload.status ≠ some "ok" then
    let message :=
      match payload.message with
      | some m => if m ≠ "" then m else analysisFailFallback
      | none => analysisFailFallback
    finallyClear (showStatusIn (clearSession s) message "error")
  else
    let s1 := { s with sessionValue := payload.session.getD "" }
    let s2 := { s1 with fields := applySuggestions s1.fields (payload.suggestions.getD emptySuggestions) }
    finallyClear (showStatusIn s2 "Suggestions ready—review and adjust if needed." "success")

/-- An occurrence on the page's event loop: the user-driven handlers, a
scheduled timer firing, and the asynchronous settlements of an in-flight
fetch (headers arriving, the fetch promise rejecting with AbortError or a
network error, the body read settling). -/
inductive Event where
  | pickFiles (fileList : List (Option JSFile))
  | removePhoto (id : Nat)
  | clearAll
  | submit
  | trigger
  | reset
  | timerFire (t : Nat)
  | recvHeaders (c : Nat) (ok : Bool)
  | settleAbort (c : Nat)
  | settleNet (c : Nat)
  | settleBody (c : Nat) (res : Option Payload)

/-- Whether an event can occur in a state.  User events are always
possible; a timer fires only while scheduled; headers arrive or a network
error occurs only for a non-aborted request awaiting headers; the fetch
promise rejects with AbortError only for an aborted request awaiting
headers; the body read settles only for a request awaiting the body, and
an aborted body read can only settle as a rejection (`res = none`). -/
def enabled (s : AppState) (e : Event) : Bool :=
  match e with
  | .pickFiles _ => true
  | .removePhoto _ => true
  | .clearAll => true
  | .submit => true
  | .trigger => true
  | .reset => true
  | .timerFire t => s.timerTable.contains t
  | .recvHeaders c _ =>
    match findReq s c with
    | some r => !r.aborted && r.phase == ReqPhase.awaitingHeaders
    | none => false
  | .settleAbort c =>
    match findReq s c with
    | some r => r.aborted && r.phase == ReqPhase.awaitingHeaders
    | none => false
  | .settleNet c =>
    match findReq s c with
    | some r => !r.aborted && r.phase == ReqPhase.awaitingHeaders
    | none => false
  | .settleBody c res =>
    match findReq s c with
    | some r =>
      (match r.phase with
       | ReqPhase.awaitingBody _ => true
       | _ => false) && (!r.aborted || res.isNone)
    | none => false

/-- The effect of an event; a disabled event leaves the state unchanged.
A timer that fires is consumed from the table and runs `runAnalysis`; an
AbortError settlement runs only the `finally` block; a network-error
settlement clears the session, shows the network message and runs the
`finally` block; a body settlement runs `settleBodyHandler`. -/
def applyEvent (s : AppState) (e : Event) : AppState :=
  match e with
  | .pickFiles fl => handleFiles s fl
  | .removePhoto id => removeFile s id
  | .clearAll => clearButtonClick s
  | .submit => submitHandler s
  | .trigger => (triggerClick s).1
  | .reset => resetHandler s
  | .timerFire t =>
    if s.timerTable.contains t then runAnalysisImpl { s with timerTable := s.timerTable.erase t }
    else s
  | .recvHeaders c ok =>
    match findReq s c with
    | some r =>
      if !r.aborted && r.phase == ReqPhase.awaitingHeaders then setPhase s c (ReqPhase.awaitingBody ok)
      else s
    | none => s
  | .settleAbort c =>
    match findReq s c with
    | some r =>
      if r.aborted && r.phase == ReqPhase.awaitingHeaders then finallyClear (dropReq s c)
      else s
    | none => s
  | .settleNet c =>
    match findReq s c with
    | some r =>
      if !r.aborted && r.phase == ReqPhase.awaitingHeaders then
        finallyClear (showStatusIn (clearSession (dropReq s c))
          "Network error while analyzing photos. Please retry." "error")
      else s
    | none => s
  | .settleBody c res =>
    match findReq s c with
    | some r =>
      match r.phase with
      | ReqPhase.awaitingBody ok =>
        if !r.aborted || res.isNone then settleBodyHandler (dropReq s c) ok res
        else s
      | _ => s
    | none => s

/-- Run a sequence of events, failing if any event is not enabled when its
turn comes. -/
def runTrace (s : AppState) : List Event → Option AppState
  | [] => some s
  | e :: es => if enabled s e then runTrace (applyEvent s e) es else none

/-- Reachability along enabled events. -/
inductive Reach : AppState → AppState → Prop where
  | refl (s : AppState) : Reach s s
  | step {s t : AppState} (e : Event) :
      Reach s t → enabled t e = true → Reach s (applyEvent t e)

/-- The state right after the IIFE finishes wiring the page: empty store,
unbound session, default status, nothing scheduled or in flight.  Timer
ids start at 1 so that the JS truthiness test on `analysisTimeout` agrees
with `Option.isSome`. -/
def mkInitial : AppState :=
  { selectedFiles := []
    sessionValue := ""
    statusText := "Add photos to generate suggestions."
    statusTone := none
    analysisController := none
    analyzing := false
    analysisTimeout := none
    timerTable := []
    fileInputFiles := []
    fields :=
      { sn := some (Elem.input ""), asset_tag := some (Elem.input "")
        description := some (Elem.input ""), subcategory := some (Elem.select "" [""])
        cod_destiny := some (Elem.select "" [""]) }
    inFlight := []
    revokedUrls := []
    nextId := 0
    nextUrl := 0
    nextCtl := 0
    nextTimer := 1
    defaultStatus := "Add photos to generate suggestions."
    hasDT := true }

/-! ## Suggestion applier (C1) -/

/-- Helper: `gentlySetValue` never changes a text input whose current value
is non-blank, whatever the suggested value. -/
theorem gentlySetValue_input_nonblank (v : String) (sv : Option String)
    (h : isBlank v = false) :
    gentlySetValue (some (Elem.input v)) sv = some (Elem.input v) := by
  cases sv with
  | none => rfl
  | some x =>
    by_cases hx : x = ""
    · simp [gentlySetValue, hx]
    · simp [gentlySetValue, hx, h]

/-- Helper: an absent, null or empty suggested value leaves any field
untouched. -/
theorem gentlySetValue_falsy (el : Option Elem) (sv : Option String)
    (h : sv = none ∨ sv = some "") : gentlySetValue el sv = el := by
  rcases h with h | h <;> subst h <;> cases el <;> simp [gentlySetValue]

/-- Helper: a non-empty suggested value matching an option of a select is
always written, regardless of the select's current value. -/
theorem gentlySetValue_select_match (cur sv : String) (opts : List String)
    (h1 : sv ≠ "") (h2 : sv ∈ opts) :
    gentlySetValue (some (Elem.select cur opts)) (some sv) = some (Elem.select sv opts) := by
  simp [gentlySetValue, h1, h2]

/-- Concrete form state for the C1 counterexample: the subcategory select
already holds the non-blank value `optA`. -/
def c1Fields : FormFields :=
  { sn := some (Elem.input ""), asset_tag := none, description := none
    subcategory := some (Elem.select "optA" ["optA", "optB"]), cod_destiny := none }

/-- Concrete suggestion payload for the C1 counterexample. -/
def c1Sugg : Suggestions :=
  { serial_number := none, asset_tag := none, short_description := none
    subcategory := some "optB", cod_destiny := none }

/-- C1 is FALSE as stated: the subcategory field is a select whose current
value `optA` is non-blank, yet applying a suggestion payload whose
subcategory value `optB` matches an existing option changes the field's
value to `optB` — `gentlySetValue` only applies the blank guard to
text-like inputs, not to selects. -/
theorem applySuggestions_overwrites_nonblank_select :
    c1Fields.subcategory = some (Elem.select "optA" ["optA", "optB"]) ∧
    isBlank (Elem.select "optA" ["optA", "optB"]).value = false ∧
    (applySuggestions c1Fields c1Sugg).subcategory = some (Elem.select "optB" ["optA", "optB"]) := by
  decide

/-- C1 (amended): applying suggestions never changes a non-blank text-like
field (serial number, asset tag, description, or any other field wired as
a text input), and never changes a field whose suggested value is absent,
null or empty; but a select field (subcategory, destination) is rewritten
to any non-empty suggested value that matches one of its options, even
when its current value is non-blank. -/
theorem suggestion_blank_rule_by_kind (f : FormFields) (sg : Suggestions) :
    (∀ v, f.sn = some (Elem.input v) → isBlank v = false →
      (applySuggestions f sg).sn = f.sn) ∧
    (∀ v, f.asset_tag = some (Elem.input v) → isBlank v = false →
      (applySuggestions f sg).asset_tag = f.asset_tag) ∧
    (∀ e, f.description = some e → isBlank e.value = false →
      (applySuggestions f sg).description = f.description) ∧
    (∀ v, f.subcategory = some (Elem.input v) → isBlank v = false →
      (applySuggestions f sg).subcategory = f.subcategory) ∧
    (∀ v, f.cod_destiny = some (Elem.input v) → isBlank v = false →
      (applySuggestions f sg).cod_destiny = f.cod_destiny) ∧
    (∀ cur opts sv, f.subcategory = some (Elem.select cur opts) →
      sg.subcategory = some sv → sv ≠ "" → sv ∈ opts →
      (applySuggestions f sg).subcategory = some (Elem.select sv opts)) ∧
    (∀ cur opts sv, f.cod_destiny = some (Elem.select cur opts) →
      sg.cod_destiny = some sv → sv ≠ "" → sv ∈ opts →
      (applySuggestions f sg).cod_destiny = some (Elem.select sv opts)) ∧
    ((sg.serial_number = none ∨ sg.serial_number = some "") →
      (applySuggestions f sg).sn = f.sn) ∧
    ((sg.asset_tag = none ∨ sg.asset_tag = some "") →
      (applySuggestions f sg).asset_tag = f.asset_tag) ∧
    ((sg.short_description = none ∨ sg.short_description = some "") →
      (applySuggestions f sg).description = f.description) ∧
    ((sg.subcategory = none ∨ sg.subcategory = some "") →
      (applySuggestions f sg).subcategory = f.subcategory) ∧
    ((sg.cod_destiny = none ∨ sg.cod_destiny = some "") →
      (applySuggestions f sg).cod_destiny = f.cod_destiny) := by
  refine ⟨?_, ?_, ?_, ?_, ?_, ?_, ?_, ?_, ?_, ?_, ?_, ?_⟩
  · intro v hv hb
    show gentlySetValue f.sn sg.serial_number = f.sn
    rw [hv, gentlySetValue_input_nonblank v _ hb]
  · intro v hv hb
    show gentlySetValue f.asset_tag sg.asset_tag = f.asset_tag
    rw [hv, gentlySetValue_input_nonblank v _ hb]
  · intro e hv hb
    show (match f.description, sg.short_description with
      | some el, some m =>
        if m ≠ "" then
          if isBlank el.value then some (el.assignValue m) else some el
        else some el
      | d, _ => d) = f.description
    rw [hv]
    cases sg.short_description with
    | none => rfl
    | some m =>
      by_cases hm : m = ""
      · simp [hm]
      · simp [hm, hb]
  · intro v hv hb
    show gentlySetValue f.subcategory sg.subcategory = f.subcategory
    rw [hv, gentlySetValue_input_nonblank v _ hb]
  · intro v hv hb
    show (match f.cod_destiny, sg.cod_destiny with
      | some el, some x => gentlySetValue (some el) (some x)
      | d, _ => d) = f.cod_destiny
    rw [hv]
    cases sg.cod_destiny with
    | none => rfl
    | some x =>
      simp only []
      rw [gentlySetValue_input_nonblank v _ hb]
  · intro cur opts sv hv hs h1 h2
    show gentlySetValue f.subcategory sg.subcategory = some (Elem.select sv opts)
    rw [hv, hs, gentlySetValue_select_match cur sv opts h1 h2]
  · intro cur opts sv hv hs h1 h2
    show (match f.cod_destiny, sg.cod_destiny with
      | some el, some x => gentlySetValue (some el) (some x)
      | d, _ => d) = some (Elem.select sv opts)
    rw [hv, hs]
    simp only []
    rw [gentlySetValue_select_match cur sv opts h1 h2]
  · intro h
    show gentlySetValue f.sn sg.serial_number = f.sn
    exact gentlySetValue_falsy _ _ h
  · intro h
    show gentlySetValue f.asset_tag sg.asset_tag = f.asset_tag
    exact gentlySetValue_falsy _ _ h
  · intro h
    show (match f.description, sg.short_description with
      | some el, some m =>
        if m ≠ "" then
          if isBlank el.value then some (el.assignValue m) else some el
        else some el
      | d, _ => d) = f.description
    rcases h with h | h <;> rw [h] <;> cases f.description <;> simp
  · intro h
    show gentlySetValue f.subcategory sg.subcategory = f.subcategory
    exact gentlySetValue_falsy _ _ h
  · intro h
    show (match f.cod_destiny, sg.cod_destiny with
      | some el, some x => gentlySetValue (some el) (some x)
      | d, _ => d) = f.cod_destiny
    rcases h with h | h <;> rw [h] <;> cases f.cod_destiny <;> simp [gentlySetValue]

/-- Concrete fields for the C1 amended-claim witness. -/
def c1WitFields : FormFields :=
  { sn := some (Elem.input "USERSN"), asset_tag := some (Elem.input ""),
    description := some (Elem.input "typed"), subcategory := some (Elem.select "a" ["a", "b"]),
    cod_destiny := none }

/-- Concrete suggestions for the C1 amended-claim witness. -/
def c1WitSugg : Suggestions :=
  { serial_number := some "SN1", asset_tag := none, short_description := some "d",
    subcategory := some "b", cod_destiny := none }

/-- Witness for the amended C1 theorem at a concrete input: a non-blank
serial input survives a suggestion, and a matching select suggestion
overwrites a non-blank select. -/
theorem suggestion_blank_rule_by_kind_witness :
    (applySuggestions c1WitFields c1WitSugg).sn = c1WitFields.sn ∧
    (applySuggestions c1WitFields c1WitSugg).subcategory = some (Elem.select "b" ["a", "b"]) := by
  have h := suggestion_blank_rule_by_kind c1WitFields c1WitSugg
  exact ⟨h.1 "USERSN" (by decide) (by decide),
    h.2.2.2.2.2.1 "a" ["a", "b"] "b" (by decide) (by decide) (by decide) (by decide)⟩

/-! ## Selection store (C4, C5) -/

/-- The entries appended by the push loop, starting from given fresh-id and
fresh-preview counters, in input order. -/
def freshEntries (i u : Nat) : List JSFile → List SelectedPhoto
  | [] => []
  | f :: fs => ⟨i, f, u⟩ :: freshEntries (i + 1) (u + 1) fs

theorem freshEntries_map_file (i u : Nat) (l : List JSFile) :
    (freshEntries i u l).map (fun e => e.file) = l := by
  induction l generalizing i u with
  | nil => rfl
  | cons f fs ih => simp [freshEntries, ih]

theorem freshEntries_map_id (i u : Nat) (l : List JSFile) :
    (freshEntries i u l).map (fun e => e.id) = List.range' i l.length := by
  induction l generalizing i u with
  | nil => rfl
  | cons f fs ih => simp [freshEntries, ih, List.range']

theorem pushAll_selectedFiles (s : AppState) (l : List JSFile) :
    (pushAll s l).selectedFiles = s.selectedFiles ++ freshEntries s.nextId s.nextUrl l := by
  induction l generalizing s with
  | nil => simp [pushAll, freshEntries]
  | cons f fs ih =>
    simp [pushAll, freshEntries, ih, List.append_assoc]

theorem pushAll_sessionValue (s : AppState) (l : List JSFile) :
    (pushAll s l).sessionValue = s.sessionValue := by
  induction l generalizing s with
  | nil => rfl
  | cons f fs ih => simp [pushAll, ih]

theorem pushAll_timerFields (s : AppState) (l : List JSFile) :
    (pushAll s l).timerTable = s.timerTable ∧
    (pushAll s l).nextTimer = s.nextTimer ∧
    (pushAll s l).analysisTimeout = s.analysisTimeout := by
  induction l generalizing s with
  | nil => exact ⟨rfl, rfl, rfl⟩
  | cons f fs ih => simpa [pushAll] using ih _

/-- C4: `handleFiles` rejects over-count or over-size additions (checked
against the prospective post-add state) with an error status and no store
mutation; otherwise it appends every (truthy) incoming file, in input
order, each with a freshly generated unique id and a newly acquired
preview handle. -/
theorem handleFiles_add_spec (s : AppState) (fl : List (Option JSFile))
    (hc : s.selectedFiles.length ≤ MAX_FILES)
    (hb : totalBytes s ≤ MAX_TOTAL_BYTES)
    (hid : ∀ e ∈ s.selectedFiles, e.id < s.nextId)
    (hnd : (s.selectedFiles.map (fun e => e.id)).Nodup) :
    if s.selectedFiles.length + fl.reduceOption.length > MAX_FILES ∨
        totalBytes s + (fl.reduceOption.map (fun f => f.size)).sum > MAX_TOTAL_BYTES then
      (handleFiles s fl).selectedFiles = s.selectedFiles ∧
      (handleFiles s fl).statusTone = some "error"
    else
      (handleFiles s fl).selectedFiles
        = s.selectedFiles ++ freshEntries s.nextId s.nextUrl fl.reduceOption ∧
      ((handleFiles s fl).selectedFiles.map (fun e => e.file))
        = s.selectedFiles.map (fun e => e.file) ++ fl.reduceOption ∧
      ((handleFiles s fl).selectedFiles.map (fun e => e.id)).Nodup := by
  by_cases hinc : fl.reduceOption.isEmpty
  · have hnil : fl.reduceOption = [] := List.isEmpty_iff.mp hinc
    have hcond : ¬(s.selectedFiles.length + fl.reduceOption.length > MAX_FILES ∨
        totalBytes s + (fl.reduceOption.map (fun f => f.size)).sum > MAX_TOTAL_BYTES) := by
      rw [hnil]
      simp only [List.length_nil, List.map_nil, List.sum_nil, Nat.add_zero]
      push_neg
      exact ⟨hc, hb⟩
    rw [if_neg hcond]
    have hres : handleFiles s fl = s := by
      unfold handleFiles
      rw [if_pos hinc]
    rw [hres, hnil]
    refine ⟨by simp [freshEntries], by simp, hnd⟩
  · by_cases hcnt : s.selectedFiles.length + fl.reduceOption.length > MAX_FILES
    · rw [if_pos (Or.inl hcnt)]
      have hres : handleFiles s fl =
          showStatusIn s "Limit 10 photos per product. Remove some before adding more." "error" := by
        unfold handleFiles
        rw [if_neg hinc, if_pos hcnt]
      rw [hres]
      exact ⟨by simp [showStatusIn], by simp [showStatusIn]⟩
    · by_cases hsz : totalBytes s + (fl.reduceOption.map (fun f => f.size)).sum > MAX_TOTAL_BYTES
      · rw [if_pos (Or.inr hsz)]
        have hres : handleFiles s fl =
            showStatusIn s "Images exceed the 25 MB limit. Remove large files before retrying." "error" := by
          unfold handleFiles
          rw [if_neg hinc, if_neg hcnt, if_pos hsz]
        rw [hres]
        exact ⟨by simp [showStatusIn], by simp [showStatusIn]⟩
      · rw [if_neg (by push_neg; push_neg at hcnt hsz; exact ⟨hcnt, hsz⟩)]
        have hres : handleFiles s fl =
            queueAnalysis (syncFileInput (clearSession (pushAll s fl.reduceOption))) := by
          unfold handleFiles
          rw [if_neg hinc, if_neg hcnt, if_neg hsz]
        have hsync : ∀ x : AppState, (syncFileInput x).selectedFiles = x.selectedFiles := by
          intro x
          unfold syncFileInput
          split <;> rfl
        have hsel : (handleFiles s fl).selectedFiles
            = s.selectedFiles ++ freshEntries s.nextId s.nextUrl fl.reduceOption := by
          rw [hres]
          show (syncFileInput (clearSession (pushAll s fl.reduceOption))).selectedFiles = _
          rw [hsync]
          exact pushAll_selectedFiles s fl.reduceOption
        refine ⟨hsel, ?_, ?_⟩
        · rw [hsel, List.map_append, freshEntries_map_file]
        · rw [hsel, List.map_append, freshEntries_map_id]
          refine hnd.append (List.nodup_range' _ _) ?_
          intro a ha hr
          have h1 : a < s.nextId := by
            obtain ⟨e, he, rfl⟩ := List.mem_map.mp ha
            exact hid e he
          have h2 : s.nextId ≤ a := (List.mem_range'_1.mp hr).1
          exact absurd h1 (Nat.not_lt.mpr h2)

/-- Witness for C4 at a concrete input: adding one 5-byte file to the
freshly initialised page. -/
theorem handleFiles_add_spec_witness :
    if mkInitial.selectedFiles.length + [some (JSFile.mk 5)].reduceOption.length > MAX_FILES ∨
        totalBytes mkInitial + ([some (JSFile.mk 5)].reduceOption.map (fun f => f.size)).sum > MAX_TOTAL_BYTES then
      (handleFiles mkInitial [some (JSFile.mk 5)]).selectedFiles = mkInitial.selectedFiles ∧
      (handleFiles mkInitial [some (JSFile.mk 5)]).statusTone = some "error"
    else
      (handleFiles mkInitial [some (JSFile.mk 5)]).selectedFiles
        = mkInitial.selectedFiles ++ freshEntries mkInitial.nextId mkInitial.nextUrl [some (JSFile.mk 5)].reduceOption ∧
      ((handleFiles mkInitial [some (JSFile.mk 5)]).selectedFiles.map (fun e => e.file))
        = mkInitial.selectedFiles.map (fun e => e.file) ++ [some (JSFile.mk 5)].reduceOption ∧
      ((handleFiles mkInitial [some (JSFile.mk 5)]).selectedFiles.map (fun e => e.id)).Nodup :=
  handleFiles_add_spec mkInitial [some (JSFile.mk 5)]
    (by decide) (by decide) (by decide) (by decide)

theorem syncFileInput_sessionValue (x : AppState) :
    (syncFileInput x).sessionValue = x.sessionValue := by
  unfold syncFileInput
  split <;> rfl

theorem showStatusIn_sessionValue (x : AppState) (m t : String) :
    (showStatusIn x m t).sessionValue = x.sessionValue := by
  unfold showStatusIn
  split <;> split <;> rfl

theorem removeFileFound_sessionValue (s : AppState) (i : Nat) :
    (removeFileFound s i).sessionValue = "" := by
  simp [removeFileFound, removeFileTail, apply_ite AppState.sessionValue,
    showStatusIn_sessionValue, syncFileInput_sessionValue, clearSession, queueAnalysis]

/-- C5: every store mutation — a successful add, a remove of a present id,
and clear-all — leaves the hidden session field empty within the same
synchronous handler. -/
theorem store_mutation_clears_session (s : AppState) (fl : List (Option JSFile)) (pid : Nat) :
    (fl.reduceOption ≠ [] →
      s.selectedFiles.length + fl.reduceOption.length ≤ MAX_FILES →
      totalBytes s + (fl.reduceOption.map (fun f => f.size)).sum ≤ MAX_TOTAL_BYTES →
      (handleFiles s fl).sessionValue = "") ∧
    ((s.selectedFiles.findIdx? (fun e => e.id == pid)).isSome = true →
      (removeFile s pid).sessionValue = "") ∧
    (clearButtonClick s).sessionValue = "" := by
  refine ⟨?_, ?_, ?_⟩
  · intro hne hcnt hsz
    have hres : handleFiles s fl =
        queueAnalysis (syncFileInput (clearSession (pushAll s fl.reduceOption))) := by
      unfold handleFiles
      rw [if_neg (fun h => hne (List.isEmpty_iff.mp h)),
        if_neg (Nat.not_lt.mpr hcnt), if_neg (Nat.not_lt.mpr hsz)]
    rw [hres]
    show (syncFileInput (clearSession (pushAll s fl.reduceOption))).sessionValue = ""
    rw [syncFileInput_sessionValue]
    rfl
  · intro hfi
    obtain ⟨i, hi⟩ := Option.isSome_iff_exists.mp hfi
    unfold removeFile
    rw [hi]
    exact removeFileFound_sessionValue s i
  · unfold clearButtonClick
    rw [showStatusIn_sessionValue]
    exact syncFileInput_sessionValue _

/-- Witness for C5 at concrete inputs: one 7-byte file added to the fresh
page, removal of the id it received, and clear-all on that state. -/
theorem store_mutation_clears_session_witness :
    (handleFiles mkInitial [some (JSFile.mk 7)]).sessionValue = "" ∧
    (removeFile (handleFiles mkInitial [some (JSFile.mk 7)]) 0).sessionValue = "" ∧
    (clearButtonClick (handleFiles mkInitial [some (JSFile.mk 7)])).sessionValue = "" := by
  have h1 := store_mutation_clears_session mkInitial [some (JSFile.mk 7)] 0
  have h2 := store_mutation_clears_session (handleFiles mkInitial [some (JSFile.mk 7)])
    [some (JSFile.mk 7)] 0
  exact ⟨h1.1 (by decide) (by decide) (by decide), h2.2.1 (by decide), h2.2.2⟩

/-! ## Form submission (C7) and the picker trigger (C10) -/

/-- C7: on submit exactly one submission mode is used.  A bound session
token (non-empty hidden field) empties the native file field so only the
token travels; an unbound token resynchronizes the native file field to
mirror the selection store, so the raw files travel — never both modes,
and never neither while a selection exists. -/
theorem submit_token_xor_files (s : AppState) (hdt : s.hasDT = true) :
    (s.sessionValue ≠ "" →
      (submitHandler s).fileInputFiles = [] ∧
      (submitHandler s).sessionValue = s.sessionValue) ∧
    (s.sessionValue = "" →
      (submitHandler s).fileInputFiles = s.selectedFiles.map (fun e => e.file) ∧
      (submitHandler s).sessionValue = "" ∧
      (s.selectedFiles ≠ [] → (submitHandler s).fileInputFiles ≠ [])) := by
  constructor
  · intro h
    simp [submitHandler, h]
  · intro h
    have hres : submitHandler s = syncFileInput s := by
      simp [submitHandler, h]
    rw [hres]
    unfold syncFileInput
    rw [hdt]
    refine ⟨rfl, h, ?_⟩
    intro hne hmap
    exact hne (List.map_eq_nil_iff.mp hmap)

/-- Witness for C7: the fresh page with one selected file and no token uses
the raw-files mode; the same state with a bound token uses the token mode. -/
theorem submit_token_xor_files_witness :
    ((handleFiles mkInitial [some (JSFile.mk 3)]).sessionValue = "" →
      (submitHandler (handleFiles mkInitial [some (JSFile.mk 3)])).fileInputFiles
        = (handleFiles mkInitial [some (JSFile.mk 3)]).selectedFiles.map (fun e => e.file)) ∧
    (submitHandler { mkInitial with sessionValue := "tok" }).fileInputFiles = [] := by
  have h1 := submit_token_xor_files (handleFiles mkInitial [some (JSFile.mk 3)]) (by decide)
  have h2 := submit_token_xor_files { mkInitial with sessionValue := "tok" } (by decide)
  exact ⟨fun h => (h1.2 h).1, (h2.1 (by decide)).1⟩

theorem settleBodyHandler_analyzing (x : AppState) (ok : Bool) (res : Option Payload) :
    (settleBodyHandler x ok res).analyzing = false := by
  simp [settleBodyHandler, finallyClear, apply_ite AppState.analyzing]

/-- C10: while the analyzing flag is raised a click on the photo-picker
trigger neither opens the file chooser nor changes any state; with the
flag down it opens the chooser; and every settlement of an in-flight
request lowers the flag (the `finally` block), so the trigger works again
afterwards. -/
theorem trigger_noop_while_analyzing (s : AppState) :
    (s.analyzing = true → triggerClick s = (s, false)) ∧
    (s.analyzing = false → triggerClick s = (s, true)) ∧
    (∀ c, enabled s (Event.settleAbort c) = true →
      (applyEvent s (Event.settleAbort c)).analyzing = false) ∧
    (∀ c, enabled s (Event.settleNet c) = true →
      (applyEvent s (Event.settleNet c)).analyzing = false) ∧
    (∀ c res, enabled s (Event.settleBody c res) = true →
      (applyEvent s (Event.settleBody c res)).analyzing = false) := by
  refine ⟨?_, ?_, ?_, ?_, ?_⟩
  · intro h
    simp [triggerClick, h]
  · intro h
    simp [triggerClick, h]
  · intro c hen
    simp only [enabled] at hen
    simp only [applyEvent]
    cases hf : findReq s c with
    | none => rw [hf] at hen; exact absurd hen (by simp)
    | some r =>
      rw [hf] at hen
      have hen2 : (r.aborted && r.phase == ReqPhase.awaitingHeaders) = true := hen
      show (if (r.aborted && r.phase == ReqPhase.awaitingHeaders) = true
        then finallyClear (dropReq s c) else s).analyzing = false
      rw [if_pos hen2]
      rfl
  · intro c hen
    simp only [enabled] at hen
    simp only [applyEvent]
    cases hf : findReq s c with
    | none => rw [hf] at hen; exact absurd hen (by simp)
    | some r =>
      rw [hf] at hen
      have hen2 : (!r.aborted && r.phase == ReqPhase.awaitingHeaders) = true := hen
      show (if (!r.aborted && r.phase == ReqPhase.awaitingHeaders) = true
        then finallyClear (showStatusIn (clearSession (dropReq s c))
          "Network error while analyzing photos. Please retry." "error")
        else s).analyzing = false
      rw [if_pos hen2]
      rfl
  · intro c res hen
    simp only [enabled] at hen
    simp only [applyEvent]
    cases hf : findReq s c with
    | none => rw [hf] at hen; exact absurd hen (by simp)
    | some r =>
      rw [hf] at hen
      have hen2 : ((match r.phase with
        | ReqPhase.awaitingBody _ => true
        | _ => false) && (!r.aborted || res.isNone)) = true := hen
      show (match r.phase with
        | ReqPhase.awaitingBody ok =>
          if (!r.aborted || res.isNone) = true then settleBodyHandler (dropReq s c) ok res else s
        | _ => s).analyzing = false
      cases hp : r.phase with
      | awaitingHeaders =>
        rw [hp] at hen2
        exact absurd hen2 (by simp)
      | awaitingBody ok =>
        rw [hp] at hen2
        simp only [Bool.true_and] at hen2
        show (if (!r.aborted || res.isNone) = true
          then settleBodyHandler (dropReq s c) ok res else s).analyzing = false
        rw [if_pos hen2]
        exact settleBodyHandler_analyzing _ _ _

/-- Concrete state for the C10 witness: analyzing, with one non-aborted
request awaiting headers. -/
def c10State : AppState :=
  { mkInitial with analyzing := true, inFlight := [⟨0, false, ReqPhase.awaitingHeaders⟩] }

/-- Witness for C10: concrete states with the flag raised and lowered, and
a concrete settlement lowering the flag. -/
theorem trigger_noop_while_analyzing_witness :
    triggerClick c10State = (c10State, false) ∧
    triggerClick mkInitial = (mkInitial, true) ∧
    (applyEvent c10State (Event.settleNet 0)).analyzing = false := by
  have h1 := trigger_noop_while_analyzing c10State
  have h2 := trigger_noop_while_analyzing mkInitial
  exact ⟨h1.1 (by decide), h2.2.1 (by decide), h1.2.2.2.1 0 (by decide)⟩

/-! ## Response handling (C9, C6) -/

theorem showStatusIn_nonblank (x : AppState) (m t : String)
    (hm : isBlank m = false) (ht : t ≠ "") :
    showStatusIn x m t = { x with statusText := m, statusTone := some t } := by
  simp [showStatusIn, hm, ht]

theorem settleBodyHandler_success (x : AppState) (pl : Payload)
    (hok : pl.status = some "ok") :
    settleBodyHandler x true (some pl) =
      finallyClear (showStatusIn
        { x with
          sessionValue := pl.session.getD ""
          fields := applySuggestions x.fields (pl.suggestions.getD emptySuggestions) }
        "Suggestions ready—review and adjust if needed." "success") := by
  have hcond : ¬(true = false ∨ pl.status ≠ some "ok") := by simp [hok]
  simp only [settleBodyHandler, Option.getD_some]
  rw [if_neg hcond]

/-- C9: a successful response (HTTP ok, status field "ok") whose `session`
field is absent, null or the empty string leaves the hidden session field
empty — the token ends unbound — while the status still becomes success
and the suggestions are still applied. -/
theorem success_empty_session_unbinds (s : AppState) (c : Nat) (pl : Payload)
    (hreq : findReq s c = some ⟨c, false, ReqPhase.awaitingBody true⟩)
    (hok : pl.status = some "ok")
    (hsess : pl.session = none ∨ pl.session = some "") :
    (applyEvent s (Event.settleBody c (some pl))).sessionValue = "" ∧
    (applyEvent s (Event.settleBody c (some pl))).statusTone = some "success" ∧
    (applyEvent s (Event.settleBody c (some pl))).statusText
      = "Suggestions ready—review and adjust if needed." ∧
    (applyEvent s (Event.settleBody c (some pl))).fields
      = applySuggestions s.fields (pl.suggestions.getD emptySuggestions) := by
  have hres : applyEvent s (Event.settleBody c (some pl))
      = settleBodyHandler (dropReq s c) true (some pl) := by
    simp only [applyEvent]
    rw [hreq]
    rfl
  rw [hres, settleBodyHandler_success _ _ hok,
    showStatusIn_nonblank _ _ _ (by decide) (by decide)]
  refine ⟨?_, rfl, rfl, rfl⟩
  show pl.session.getD "" = ""
  rcases hsess with h | h <;> rw [h] <;> rfl

/-- Concrete state for the C9 and C6 witnesses: one request with headers
received (`response.ok` true) awaiting its body. -/
def bodyPendingState : AppState :=
  { mkInitial with
    analyzing := true
    analysisController := some 0
    inFlight := [⟨0, false, ReqPhase.awaitingBody true⟩] }

/-- Witness for C9 at a concrete input: a successful payload whose session
field is the empty string. -/
theorem success_empty_session_unbinds_witness :
    (applyEvent bodyPendingState (Event.settleBody 0 (some
      { status := some "ok", session := some "", suggestions := none, message := none }))).sessionValue = "" ∧
    (applyEvent bodyPendingState (Event.settleBody 0 (some
      { status := some "ok", session := some "", suggestions := none, message := none }))).statusTone = some "success" := by
  have h := success_empty_session_unbinds bodyPendingState 0
    { status := some "ok", session := some "", suggestions := none, message := none }
    (by decide) (by decide) (by decide)
  exact ⟨h.1, h.2.1⟩

theorem showStatusIn_statusText (x : AppState) (m t : String) :
    (showStatusIn x m t).statusText = if isBlank m = true then x.defaultStatus else m := by
  simp [showStatusIn, apply_ite AppState.statusText]

theorem showStatusIn_statusTone_of_tone (x : AppState) (m t : String) (ht : t ≠ "") :
    (showStatusIn x m t).statusTone = some t := by
  simp [showStatusIn, ht]

theorem settleBodyHandler_failure (x : AppState) (ok : Bool) (pl : Payload)
    (hfail : ok = false ∨ pl.status ≠ some "ok") :
    settleBodyHandler x ok (some pl) =
      finallyClear (showStatusIn (clearSession x)
        (match pl.message with
         | some m => if m ≠ "" then m else analysisFailFallback
         | none => analysisFailFallback) "error") := by
  simp only [settleBodyHandler, Option.getD_some]
  rw [if_pos hfail]

theorem settleBodyHandler_malformed (x : AppState) (ok : Bool)
    (hfail : ok = false ∨ emptyPayload.status ≠ some "ok") :
    settleBodyHandler x ok none =
      finallyClear (showStatusIn (clearSession x) analysisFailFallback "error") := by
  simp only [settleBodyHandler, Option.getD_none]
  rw [if_pos hfail]
  rfl

theorem finallyClear_sessionValue (x : AppState) :
    (finallyClear x).sessionValue = x.sessionValue := rfl

theorem finallyClear_statusText (x : AppState) :
    (finallyClear x).statusText = x.statusText := rfl

theorem finallyClear_statusTone (x : AppState) :
    (finallyClear x).statusTone = x.statusTone := rfl

theorem clearSession_dropReq_defaultStatus (s : AppState) (c : Nat) :
    (clearSession (dropReq s c)).defaultStatus = s.defaultStatus := rfl

/-- C6 (amended): a failed response — HTTP not-ok, or HTTP ok with a status
field different from "ok", and likewise a body that is not parseable JSON
(treated as the empty payload) — clears the session and sets the error
tone; the displayed text is the server message when that message is
non-blank, the generic fallback when the message is absent or empty, but
the page's default status text when the message is non-empty whitespace
(`showStatus` falls back to the default for blank text). -/
theorem failure_clears_session_and_sets_error (s : AppState) (c : Nat) (ok : Bool) (pl : Payload)
    (hreq : findReq s c = some ⟨c, false, ReqPhase.awaitingBody ok⟩)
    (hfail : ok = false ∨ pl.status ≠ some "ok") :
    (applyEvent s (Event.settleBody c (some pl))).sessionValue = "" ∧
    (applyEvent s (Event.settleBody c (some pl))).statusTone = some "error" ∧
    (∀ m, pl.message = some m → isBlank m = false →
      (applyEvent s (Event.settleBody c (some pl))).statusText = m) ∧
    ((pl.message = none ∨ pl.message = some "") →
      (applyEvent s (Event.settleBody c (some pl))).statusText = analysisFailFallback) ∧
    (∀ m, pl.message = some m → m ≠ "" → isBlank m = true →
      (applyEvent s (Event.settleBody c (some pl))).statusText = s.defaultStatus) ∧
    (applyEvent s (Event.settleBody c none)).sessionValue = "" ∧
    (applyEvent s (Event.settleBody c none)).statusTone = some "error" ∧
    (applyEvent s (Event.settleBody c none)).statusText = analysisFailFallback := by
  have hres : applyEvent s (Event.settleBody c (some pl))
      = settleBodyHandler (dropReq s c) ok (some pl) := by
    simp only [applyEvent]
    rw [hreq]
    rfl
  have hresN : applyEvent s (Event.settleBody c none)
      = settleBodyHandler (dropReq s c) ok none := by
    simp only [applyEvent]
    rw [hreq]
    rfl
  have hfail2 : ok = false ∨ emptyPayload.status ≠ some "ok" := Or.inr (by decide)
  have hfb : isBlank analysisFailFallback = false := by decide
  rw [hres, hresN, settleBodyHandler_failure _ _ _ hfail, settleBodyHandler_malformed _ _ hfail2]
  refine ⟨?_, ?_, ?_, ?_, ?_, ?_, ?_, ?_⟩
  · rw [finallyClear_sessionValue, showStatusIn_sessionValue]
    rfl
  · rw [finallyClear_statusTone, showStatusIn_statusTone_of_tone _ _ _ (by decide)]
  · intro m hm hb
    have hne : m ≠ "" := by
      intro h
      rw [h] at hb
      exact absurd hb (by decide)
    rw [finallyClear_statusText, showStatusIn_statusText, hm,
      clearSession_dropReq_defaultStatus]
    simp [hne, hb]
  · intro hm
    rw [finallyClear_statusText, showStatusIn_statusText, clearSession_dropReq_defaultStatus]
    rcases hm with hm | hm <;> rw [hm] <;> simp [hfb]
  · intro m hm hne hb
    rw [finallyClear_statusText, showStatusIn_statusText, hm,
      clearSession_dropReq_defaultStatus]
    simp [hne, hb]
  · rw [finallyClear_sessionValue, showStatusIn_sessionValue]
    rfl
  · rw [finallyClear_statusTone, showStatusIn_statusTone_of_tone _ _ _ (by decide)]
  · rw [finallyClear_statusText, showStatusIn_statusText, hfb]
    rfl

/-- Witness for the amended C6 theorem at a concrete input: a non-ok
payload with a non-blank message, and a malformed body. -/
theorem failure_clears_session_and_sets_error_witness :
    (applyEvent bodyPendingState (Event.settleBody 0 (some
      { status := some "denied", session := some "zzz", suggestions := none,
        message := some "quota exceeded" }))).statusText = "quota exceeded" ∧
    (applyEvent bodyPendingState (Event.settleBody 0 (some
      { status := some "denied", session := some "zzz", suggestions := none,
        message := some "quota exceeded" }))).sessionValue = "" ∧
    (applyEvent bodyPendingState (Event.settleBody 0 none)).statusText = analysisFailFallback := by
  have h := failure_clears_session_and_sets_error bodyPendingState 0 true
    { status := some "denied", session := some "zzz", suggestions := none,
      message := some "quota exceeded" }
    (by decide) (Or.inr (by decide))
  exact ⟨h.2.2.1 "quota exceeded" rfl (by decide), h.1, h.2.2.2.2.2.2.2⟩

/-- The C6 counterexample trace: pick a file, let the timer fire, receive
ok headers, then settle the body with a non-ok status and the whitespace
message " ". -/
def c6trace : List Event :=
  [Event.pickFiles [some ⟨100⟩], Event.timerFire 1, Event.recvHeaders 0 true,
   Event.settleBody 0 (some
     { status := some "denied", session := none, suggestions := none, message := some " " })]

/-- Checker for the C6 counterexample: the server message " " is present
(non-empty), yet the displayed status text is the page's default text —
neither the server-provided message nor the generic fallback — though the
tone is error and the session is cleared. -/
def c6check : Bool :=
  match runTrace mkInitial c6trace with
  | some s =>
    s.statusText == mkInitial.defaultStatus &&
    !(s.statusText == " ") &&
    !(s.statusText == analysisFailFallback) &&
    s.statusTone == some "error" &&
    s.sessionValue == ""
  | none => false

/-- C6 is FALSE as stated on whitespace-only messages: for the response
`{status: "denied", message: " "}` the handler shows the page's default
status text, not the present server-provided message " " (and not the
generic fallback either), because `showStatus` replaces blank text with
the default. -/
theorem whitespace_message_shows_default_status : c6check = true := by decide

/-! ## In-flight marker and stale settlements (C2, C3) -/

/-- The C2 trace: pick a file (timer 1), fire it (request A, controller 0),
pick another file (timer 2), fire it (request B, controller 1, aborting
A), then let A's fetch promise reject with AbortError. -/
def c2trace : List Event :=
  [Event.pickFiles [some ⟨100⟩], Event.timerFire 1,
   Event.pickFiles [some ⟨50⟩], Event.timerFire 2,
   Event.settleAbort 0]

/-- Checker for the C2 trace: after the superseded request A settles as an
abort, the newer request B (controller 1) is still in flight and not
aborted, yet the analyzing flag is down and the controller variable is
null — A's `finally` block cleared B's in-flight marker. -/
def c2check : Bool :=
  match runTrace mkInitial c2trace with
  | some s =>
    s.analyzing == false &&
    s.analysisController == none &&
    s.inFlight == [⟨1, false, ReqPhase.awaitingHeaders⟩]
  | none => false

/-- C2 fails on the code: the `finally` block of `runAnalysis` runs on
cancellation too, so the settlement of a superseded aborted request clears
the `analyzing` flag and nulls `analysisController` while the newer
request is still in flight — the newer request's in-flight marker is not
intact, and a third `runAnalysis` would no longer abort it. -/
theorem finally_clears_marker_on_cancellation : c2check = true := by decide

/-- The C3 trace: request A (controller 0) gets ok headers and is awaiting
its body when a second pick supersedes it with request B (controller 1),
aborting A; A's body read then rejects, which `.catch(() => ({}))`
converts into the empty payload. -/
def c3trace : List Event :=
  [Event.pickFiles [some ⟨100⟩], Event.timerFire 1, Event.recvHeaders 0 true,
   Event.pickFiles [some ⟨50⟩], Event.timerFire 2,
   Event.settleBody 0 none]

/-- Checker for the C3 trace: right after B starts, the status shows B's
progress text and A is marked aborted; after canceled A's body settles,
the status display has been overwritten with the business-failure text and
the error tone (and B's in-flight marker is gone as well) — the canceled
request's settlement mutated the status. -/
def c3check : Bool :=
  match runTrace mkInitial (c3trace.take 5), runTrace mkInitial c3trace with
  | some mid, some fin =>
    mid.statusText == "Analyzing photos…" &&
    mid.statusTone == some "progress" &&
    mid.inFlight == [⟨0, true, ReqPhase.awaitingBody true⟩, ⟨1, false, ReqPhase.awaitingHeaders⟩] &&
    fin.statusText == analysisFailFallback &&
    fin.statusTone == some "error" &&
    fin.inFlight == [⟨1, false, ReqPhase.awaitingHeaders⟩] &&
    fin.analyzing == false &&
    fin.analysisController == none
  | _, _ => false

/-- C3 fails on the code: when a superseded request is aborted while its
body is being read, `.catch(() => ({}))` swallows the AbortError, the
handler takes the business-failure path, and the canceled request's
settlement overwrites the status display (progress → error) set by the
newer request — instead of being the silent no-op the claim requires. -/
theorem aborted_body_read_overwrites_status : c3check = true := by decide

/-! ## Debounce coalescing (C8) -/

theorem syncFileInput_timerTable (x : AppState) :
    (syncFileInput x).timerTable = x.timerTable := by
  unfold syncFileInput
  split <;> rfl

theorem syncFileInput_nextTimer (x : AppState) :
    (syncFileInput x).nextTimer = x.nextTimer := by
  unfold syncFileInput
  split <;> rfl

theorem showStatusIn_timerTable (x : AppState) (m t : String) :
    (showStatusIn x m t).timerTable = x.timerTable := by
  unfold showStatusIn
  split <;> split <;> rfl

theorem showStatusIn_nextTimer (x : AppState) (m t : String) :
    (showStatusIn x m t).nextTimer = x.nextTimer := by
  unfold showStatusIn
  split <;> split <;> rfl

theorem abortCtlOpt_timerTable (x : AppState) (o : Option Nat) :
    (abortCtlOpt x o).timerTable = x.timerTable := by
  cases o <;> rfl

theorem abortCtlOpt_nextTimer (x : AppState) (o : Option Nat) :
    (abortCtlOpt x o).nextTimer = x.nextTimer := by
  cases o <;> rfl

theorem settleBodyHandler_timerTable (x : AppState) (ok : Bool) (res : Option Payload) :
    (settleBodyHandler x ok res).timerTable = x.timerTable := by
  simp [settleBodyHandler, finallyClear, clearSession, apply_ite AppState.timerTable,
    showStatusIn_timerTable]

theorem settleBodyHandler_nextTimer (x : AppState) (ok : Bool) (res : Option Payload) :
    (settleBodyHandler x ok res).nextTimer = x.nextTimer := by
  simp [settleBodyHandler, finallyClear, clearSession, apply_ite AppState.nextTimer,
    showStatusIn_nextTimer]

/-- A timer id below the fresh-id counter and not scheduled: such an id can
never be scheduled again, hence never fire. -/
def TimerFresh (k : Nat) (s : AppState) : Prop :=
  k < s.nextTimer ∧ k ∉ s.timerTable

theorem not_mem_clearTimer {k : Nat} {l : List Nat} (o : Option Nat) (h : k ∉ l) :
    k ∉ clearTimer l o := by
  cases o with
  | none => exact h
  | some t => exact fun hm => h (List.mem_of_mem_erase hm)

theorem TimerFresh.of_proj {k : Nat} {s s' : AppState} (h : TimerFresh k s)
    (ht : s'.timerTable = s.timerTable) (hn : s'.nextTimer = s.nextTimer) :
    TimerFresh k s' := by
  obtain ⟨h1, h2⟩ := h
  exact ⟨by rw [hn]; exact h1, by rw [ht]; exact h2⟩

theorem timerFresh_queueAnalysis {k : Nat} {s : AppState} (h : TimerFresh k s) :
    TimerFresh k (queueAnalysis s) := by
  obtain ⟨h1, h2⟩ := h
  refine ⟨Nat.lt_succ_of_lt h1, ?_⟩
  show k ∉ clearTimer s.timerTable s.analysisTimeout ++ [s.nextTimer]
  rw [List.mem_append]
  rintro (hk | hk)
  · exact not_mem_clearTimer _ h2 hk
  · rw [List.mem_singleton] at hk
    exact absurd hk (Nat.ne_of_lt h1)

theorem timerFresh_runAnalysisImpl {k : Nat} {s : AppState} (h : TimerFresh k s) :
    TimerFresh k (runAnalysisImpl s) := by
  obtain ⟨h1, h2⟩ := h
  unfold runAnalysisImpl
  split
  · exact ⟨h1, h2⟩
  · constructor
    · simp only [showStatusIn_nextTimer, abortCtlOpt_nextTimer]
      exact h1
    · simp only [showStatusIn_timerTable, abortCtlOpt_timerTable]
      exact not_mem_clearTimer _ h2

theorem timerFresh_handleFiles {k : Nat} {s : AppState} (h : TimerFresh k s)
    (fl : List (Option JSFile)) : TimerFresh k (handleFiles s fl) := by
  by_cases hinc : fl.reduceOption.isEmpty
  · have hres : handleFiles s fl = s := by
      unfold handleFiles
      rw [if_pos hinc]
    rw [hres]
    exact h
  · by_cases hcnt : s.selectedFiles.length + fl.reduceOption.length > MAX_FILES
    · have hres : handleFiles s fl =
          showStatusIn s "Limit 10 photos per product. Remove some before adding more." "error" := by
        unfold handleFiles
        rw [if_neg hinc, if_pos hcnt]
      rw [hres]
      exact h.of_proj (showStatusIn_timerTable _ _ _) (showStatusIn_nextTimer _ _ _)
    · by_cases hsz : totalBytes s + (fl.reduceOption.map (fun f => f.size)).sum > MAX_TOTAL_BYTES
      · have hres : handleFiles s fl =
            showStatusIn s "Images exceed the 25 MB limit. Remove large files before retrying." "error" := by
          unfold handleFiles
          rw [if_neg hinc, if_neg hcnt, if_pos hsz]
        rw [hres]
        exact h.of_proj (showStatusIn_timerTable _ _ _) (showStatusIn_nextTimer _ _ _)
      · have hres : handleFiles s fl =
            queueAnalysis (syncFileInput (clearSession (pushAll s fl.reduceOption))) := by
          unfold handleFiles
          rw [if_neg hinc, if_neg hcnt, if_neg hsz]
        rw [hres]
        refine timerFresh_queueAnalysis (TimerFresh.of_proj ?_ (syncFileInput_timerTable _)
          (syncFileInput_nextTimer _))
        exact h.of_proj (pushAll_timerFields s fl.reduceOption).1
          (pushAll_timerFields s fl.reduceOption).2.1

theorem timerFresh_removeFileTail {k : Nat} {x : AppState} (h : TimerFresh k x) :
    TimerFresh k (removeFileTail x) := by
  obtain ⟨h1, h2⟩ := h
  unfold removeFileTail
  split
  · refine ⟨?_, ?_⟩
    · simp only [showStatusIn_nextTimer]
      exact h1
    · simp only [showStatusIn_timerTable]
      exact not_mem_clearTimer _ h2
  · exact timerFresh_queueAnalysis ⟨h1, h2⟩

theorem timerFresh_removeFileFound {k : Nat} {s : AppState} (h : TimerFresh k s)
    (i : Nat) : TimerFresh k (removeFileFound s i) := by
  unfold removeFileFound
  split <;>
    exact timerFresh_removeFileTail (h.of_proj
      (by rw [syncFileInput_timerTable]; rfl)
      (by rw [syncFileInput_nextTimer]; rfl))

theorem timerFresh_removeFile {k : Nat} {s : AppState} (h : TimerFresh k s)
    (id : Nat) : TimerFresh k (removeFile s id) := by
  unfold removeFile
  cases s.selectedFiles.findIdx? (fun e => e.id == id) with
  | none => exact h
  | some i => exact timerFresh_removeFileFound h i

theorem timerFresh_clearButtonClick {k : Nat} {s : AppState} (h : TimerFresh k s) :
    TimerFresh k (clearButtonClick s) := by
  obtain ⟨h1, h2⟩ := h
  unfold clearButtonClick
  refine ⟨?_, ?_⟩
  · simp only [showStatusIn_nextTimer, syncFileInput_nextTimer]
    exact h1
  · simp only [showStatusIn_timerTable, syncFileInput_timerTable]
    exact not_mem_clearTimer _ h2

theorem timerFresh_resetHandler {k : Nat} {s : AppState} (h : TimerFresh k s) :
    TimerFresh k (resetHandler s) := by
  obtain ⟨h1, h2⟩ := h
  unfold resetHandler
  refine ⟨?_, ?_⟩
  · simp only [showStatusIn_nextTimer]
    exact h1
  · simp only [showStatusIn_timerTable]
    exact not_mem_clearTimer _ h2

theorem timerFresh_applyEvent {k : Nat} {s : AppState} (e : Event) (h : TimerFresh k s) :
    TimerFresh k (applyEvent s e) := by
  obtain ⟨h1, h2⟩ := h
  cases e with
  | pickFiles fl => exact timerFresh_handleFiles ⟨h1, h2⟩ fl
  | removePhoto id => exact timerFresh_removeFile ⟨h1, h2⟩ id
  | clearAll => exact timerFresh_clearButtonClick ⟨h1, h2⟩
  | submit =>
    simp only [applyEvent]
    unfold submitHandler
    split
    · exact ⟨h1, h2⟩
    · exact ⟨by simp only [syncFileInput_nextTimer]; exact h1,
        by simp only [syncFileInput_timerTable]; exact h2⟩
  | trigger =>
    simp only [applyEvent]
    unfold triggerClick
    split <;> exact ⟨h1, h2⟩
  | reset => exact timerFresh_resetHandler ⟨h1, h2⟩
  | timerFire t =>
    simp only [applyEvent]
    split
    · refine timerFresh_runAnalysisImpl ⟨h1, ?_⟩
      exact fun hm => h2 (List.mem_of_mem_erase hm)
    · exact ⟨h1, h2⟩
  | recvHeaders c ok =>
    simp only [applyEvent]
    cases hf : findReq s c with
    | none => exact ⟨h1, h2⟩
    | some r =>
      show TimerFresh k (if (!r.aborted && r.phase == ReqPhase.awaitingHeaders) = true
        then setPhase s c (ReqPhase.awaitingBody ok) else s)
      split
      · exact ⟨h1, h2⟩
      · exact ⟨h1, h2⟩
  | settleAbort c =>
    simp only [applyEvent]
    cases hf : findReq s c with
    | none => exact ⟨h1, h2⟩
    | some r =>
      show TimerFresh k (if (r.aborted && r.phase == ReqPhase.awaitingHeaders) = true
        then finallyClear (dropReq s c) else s)
      split
      · exact ⟨h1, h2⟩
      · exact ⟨h1, h2⟩
  | settleNet c =>
    simp only [applyEvent]
    cases hf : findReq s c with
    | none => exact ⟨h1, h2⟩
    | some r =>
      show TimerFresh k (if (!r.aborted && r.phase == ReqPhase.awaitingHeaders) = true
        then finallyClear (showStatusIn (clearSession (dropReq s c))
          "Network error while analyzing photos. Please retry." "error") else s)
      split
      · exact TimerFresh.of_proj ⟨h1, h2⟩
          (by simp only [finallyClear, showStatusIn_timerTable]; rfl)
          (by simp only [finallyClear, showStatusIn_nextTimer]; rfl)
      · exact ⟨h1, h2⟩
  | settleBody c res =>
    simp only [applyEvent]
    cases hf : findReq s c with
    | none => exact ⟨h1, h2⟩
    | some r =>
      show TimerFresh k (match r.phase with
        | ReqPhase.awaitingBody ok =>
          if (!r.aborted || res.isNone) = true then settleBodyHandler (dropReq s c) ok res else s
        | _ => s)
      cases r.phase with
      | awaitingHeaders => exact ⟨h1, h2⟩
      | awaitingBody ok =>
        show TimerFresh k (if (!r.aborted || res.isNone) = true
          then settleBodyHandler (dropReq s c) ok res else s)
        split
        · exact TimerFresh.of_proj ⟨h1, h2⟩
            (by rw [settleBodyHandler_timerTable]; rfl)
            (by rw [settleBodyHandler_nextTimer]; rfl)
        · exact ⟨h1, h2⟩

theorem timerFresh_reach {k : Nat} {s s' : AppState} (h : TimerFresh k s)
    (hr : Reach s s') : TimerFresh k s' := by
  induction hr with
  | refl => exact h
  | step e hr hen ih => exact timerFresh_applyEvent e ih

theorem showStatusIn_inFlight (x : AppState) (m t : String) :
    (showStatusIn x m t).inFlight = x.inFlight := by
  unfold showStatusIn
  split <;> split <;> rfl

theorem showStatusIn_nextCtl (x : AppState) (m t : String) :
    (showStatusIn x m t).nextCtl = x.nextCtl := by
  unfold showStatusIn
  split <;> split <;> rfl

theorem abortCtlOpt_nextCtl (x : AppState) (o : Option Nat) :
    (abortCtlOpt x o).nextCtl = x.nextCtl := by
  cases o <;> rfl

theorem abortCtlOpt_inFlight_length (x : AppState) (o : Option Nat) :
    (abortCtlOpt x o).inFlight.length = x.inFlight.length := by
  cases o with
  | none => rfl
  | some c => simp [abortCtlOpt, abortCtl]

theorem runAnalysisImpl_nonempty (x : AppState) (hx : x.selectedFiles ≠ []) :
    (runAnalysisImpl x).inFlight.length = x.inFlight.length + 1 ∧
    (runAnalysisImpl x).analysisController = some x.nextCtl := by
  unfold runAnalysisImpl
  rw [if_neg (fun hc => hx (List.isEmpty_iff.mp hc))]
  constructor
  · simp only [List.length_append, showStatusIn_inFlight, abortCtlOpt_inFlight_length,
      List.length_cons, List.length_nil]
  · simp only [showStatusIn_nextCtl, abortCtlOpt_nextCtl]

/-- C8: two analysis triggers inside one settling window — two
`queueAnalysis` calls with no timer fire in between — leave exactly the
second timer scheduled: the first timer is unscheduled, can never fire in
any later reachable state, and no request has been sent by the scheduling
itself; firing the surviving second timer then sends exactly one request
(the newly installed controller). -/
theorem debounce_second_trigger_wins (s : AppState)
    (hT : ∀ t ∈ s.timerTable, t < s.nextTimer)
    (hne : s.selectedFiles ≠ []) :
    (queueAnalysis (queueAnalysis s)).analysisTimeout = some (s.nextTimer + 1) ∧
    s.nextTimer ∉ (queueAnalysis (queueAnalysis s)).timerTable ∧
    enabled (queueAnalysis (queueAnalysis s)) (Event.timerFire (s.nextTimer + 1)) = true ∧
    (queueAnalysis (queueAnalysis s)).inFlight = s.inFlight ∧
    (∀ s', Reach (queueAnalysis (queueAnalysis s)) s' → s.nextTimer ∉ s'.timerTable) ∧
    (applyEvent (queueAnalysis (queueAnalysis s))
      (Event.timerFire (s.nextTimer + 1))).inFlight.length = s.inFlight.length + 1 ∧
    (applyEvent (queueAnalysis (queueAnalysis s))
      (Event.timerFire (s.nextTimer + 1))).analysisController = some s.nextCtl := by
  have hn0 : s.nextTimer ∉ s.timerTable := fun hm => absurd (hT _ hm) (lt_irrefl _)
  have hnT : s.nextTimer ∉ clearTimer s.timerTable s.analysisTimeout :=
    not_mem_clearTimer _ hn0
  have htab2 : (queueAnalysis (queueAnalysis s)).timerTable
      = clearTimer s.timerTable s.analysisTimeout ++ [s.nextTimer + 1] := by
    show (clearTimer s.timerTable s.analysisTimeout ++ [s.nextTimer]).erase s.nextTimer
        ++ [s.nextTimer + 1] = _
    rw [List.erase_append_right _ hnT, List.erase_cons_head]
    simp
  have hnot2 : s.nextTimer ∉ (queueAnalysis (queueAnalysis s)).timerTable := by
    rw [htab2, List.mem_append]
    rintro (hk | hk)
    · exact hnT hk
    · rw [List.mem_singleton] at hk
      exact absurd hk (Nat.ne_of_lt (Nat.lt_succ_self _))
  have hmem2 : s.nextTimer + 1 ∈ (queueAnalysis (queueAnalysis s)).timerTable := by
    rw [htab2]
    exact List.mem_append.mpr (Or.inr (List.mem_singleton.mpr rfl))
  have hen : enabled (queueAnalysis (queueAnalysis s)) (Event.timerFire (s.nextTimer + 1)) = true := by
    simpa [enabled, List.contains, List.elem_iff] using hmem2
  have hc : (queueAnalysis (queueAnalysis s)).timerTable.contains (s.nextTimer + 1) = true := hen
  have happly : applyEvent (queueAnalysis (queueAnalysis s)) (Event.timerFire (s.nextTimer + 1))
      = runAnalysisImpl { queueAnalysis (queueAnalysis s) with
          timerTable := (queueAnalysis (queueAnalysis s)).timerTable.erase (s.nextTimer + 1) } := by
    simp only [applyEvent]
    rw [if_pos hc]
  have hx : ({ queueAnalysis (queueAnalysis s) with
      timerTable := (queueAnalysis (queueAnalysis s)).timerTable.erase (s.nextTimer + 1)
        } : AppState).selectedFiles ≠ [] := hne
  have hrun := runAnalysisImpl_nonempty _ hx
  refine ⟨rfl, hnot2, hen, rfl, ?_, ?_, ?_⟩
  · intro s' hr
    have hlt : s.nextTimer < (queueAnalysis (queueAnalysis s)).nextTimer := by
      show s.nextTimer < s.nextTimer + 1 + 1
      omega
    exact (timerFresh_reach ⟨hlt, hnot2⟩ hr).2
  · rw [happly]
    exact hrun.1
  · rw [happly]
    exact hrun.2

/-- Concrete state for the C8 witness: the fresh page after one file was
picked (one timer pending, nothing in flight). -/
def c8S0 : AppState := handleFiles mkInitial [some (JSFile.mk 5)]

/-- Witness for C8 at the concrete state `c8S0`. -/
theorem debounce_second_trigger_wins_witness :
    (queueAnalysis (queueAnalysis c8S0)).analysisTimeout = some (c8S0.nextTimer + 1) ∧
    c8S0.nextTimer ∉ (queueAnalysis (queueAnalysis c8S0)).timerTable ∧
    enabled (queueAnalysis (queueAnalysis c8S0)) (Event.timerFire (c8S0.nextTimer + 1)) = true ∧
    (queueAnalysis (queueAnalysis c8S0)).inFlight = c8S0.inFlight ∧
    (∀ s', Reach (queueAnalysis (queueAnalysis c8S0)) s' → c8S0.nextTimer ∉ s'.timerTable) ∧
    (applyEvent (queueAnalysis (queueAnalysis c8S0))
      (Event.timerFire (c8S0.nextTimer + 1))).inFlight.length = c8S0.inFlight.length + 1 ∧
    (applyEvent (queueAnalysis (queueAnalysis c8S0))
      (Event.timerFire (c8S0.nextTimer + 1))).analysisController = some c8S0.nextCtl :=
  debounce_second_trigger_wins c8S0 (by decide) (by decide)
